import Mathlib

/-!
Verification of the MineGuard detection-and-quantification pipeline
(`backend/phase1_detection.py`, `backend/ai_inference.py`).

Shallow embedding conventions:

* Raster values are functions from pixel coordinates to rationals
  (exact arithmetic in place of floats); boolean rasters are `Pixel → Bool`.
* The remote raster backend (Google Earth Engine) evaluates expressions
  lazily and materializes scalars via `reduceRegion` over the search zone
  at a given scale.  A materialization is modelled as a sum/mean over a
  finite sampling `Grid` (the pixel lattice of the search zone at that
  scale, with its per-pixel areas).  The three scales used by the code
  (30 m for the rim mean, 10 m for areas, 30 m for volumes) are three
  grids carried in the environment.
* External capabilities whose numerics live outside the repository
  (median composites, NDBI band math, radar roughness focal stdDev,
  polygon rasterization, log10, cv2 resizing, the torch forward pass)
  are parameters of the environment; the control flow, thresholds,
  guards and arithmetic of the repository's own code are embedded
  faithfully.
-/

namespace MineGuard

/-- Pixel coordinates of the backend's raster lattice. -/
abbrev Pixel : Type := ℤ × ℤ

/-- A polygon ring of lon/lat coordinate pairs. -/
abbrev Poly : Type := List (ℚ × ℚ)

-- CONFIGURATION constants of phase1_detection.py
def CLOUD_THRESHOLD : ℚ := 20

def OPTICAL_THRESHOLD : ℚ := 7 / 100

def RADAR_THRESHOLD : ℚ := 1 / 2

def MIN_DEPTH_THRESHOLD : ℚ := 2

/-- A `reduceRegion` sampling lattice: the pixels of the search zone at one
scale, together with each pixel's area (`ee.Image.pixelArea`). -/
structure Grid where
  pts : Finset Pixel
  pixArea : Pixel → ℚ

/-- `reduceRegion` with `ee.Reducer.sum()` on `img` masked by `mask`:
sums the image over the unmasked sample pixels; `none` when every sample
pixel is masked (the Python side then applies `or 0.0`). -/
def reduceSum (g : Grid) (img : Pixel → ℚ) (mask : Pixel → Bool) : Option ℚ :=
  if g.pts.filter (fun p => mask p = true) = ∅ then none
  else some (∑ p ∈ g.pts.filter (fun p => mask p = true), img p)

/-- `reduceRegion` with `ee.Reducer.mean()` on `img` masked by `mask`:
pixel-area-weighted mean over the unmasked sample pixels; `none` when
every sample pixel is masked. -/
def reduceMean (g : Grid) (img : Pixel → ℚ) (mask : Pixel → Bool) : Option ℚ :=
  if g.pts.filter (fun p => mask p = true) = ∅ then none
  else some ((∑ p ∈ g.pts.filter (fun p => mask p = true), img p * g.pixArea p) /
    ∑ p ∈ g.pts.filter (fun p => mask p = true), g.pixArea p)

/-- `focal_max` (morphological dilation): a pixel is set iff some pixel of
its kernel neighbourhood is set.  The 60 m circular kernel geometry is
backend data, supplied as the neighbourhood map `nbhd`. -/
def focalMax (nbhd : Pixel → Finset Pixel) (m : Pixel → Bool) (p : Pixel) : Bool :=
  decide (∃ q ∈ nbhd p, m q = true)

/-- The raster backend and scene data for one job, after filtering by the
date range and clipping to the search zone (all claims compare runs over a
fixed geometry and date range, so these are plain per-pixel functions). -/
structure Env where
  /-- NDBI band of the Sentinel-2 median composite: `normalizedDifference` of B11, B8. -/
  ndbi : Pixel → ℚ
  /-- VV band of the Sentinel-1 median composite (linear backscatter). -/
  vv : Pixel → ℚ
  /-- the backend's base-10 logarithm (its numerics are external). -/
  log10 : ℚ → ℚ
  /-- `reduceNeighborhood` with `ee.Reducer.stdDev()` and a 3-pixel square kernel. -/
  focalStd : (Pixel → ℚ) → Pixel → ℚ
  /-- the COPERNICUS GLO30 digital elevation model mosaic. -/
  dem : Pixel → ℚ
  /-- `paint(roi, 1)`: which pixels are covered by a polygon. -/
  rasterize : Poly → Pixel → Bool
  /-- 60 m circular kernel neighbourhoods for `focal_max`. -/
  nbhd : Pixel → Finset Pixel
  /-- scale-30 lattice used for the rim mean. -/
  rimGrid : Grid
  /-- scale-10 lattice used for area sums. -/
  fineGrid : Grid
  /-- scale-30 lattice used for volume sums. -/
  coarseGrid : Grid

-- Section A: input handling.

/-- The hard-coded fallback polygon of phase1_detection.py. -/
def default_roi : Poly :=
  [(86.40, 23.70), (86.45, 23.70), (86.45, 23.75), (86.40, 23.75), (86.40, 23.70)]

/-- Section A of `run_unified_detection`: `ee.Geometry(lease_geojson)` with
fallback to the default polygon when the input is absent or malformed.
`parseGeom` abstracts the external GeoJSON parser; it returns `none`
exactly when `ee.Geometry` raises. -/
def parse_roi (parseGeom : String → Option Poly) (lease_geojson : Option String) : Poly :=
  match lease_geojson with
  | some g => (parseGeom g).getD default_roi
  | none => default_roi

-- Section B: detection (total mining signature).

/-- `ndbi.gt(OPTICAL_THRESHOLD)`. -/
def optical_mask (env : Env) (p : Pixel) : Bool :=
  decide (OPTICAL_THRESHOLD < env.ndbi p)

/-- `s1.median().clip(search_zone).select('VV').max(0.001)` — the linear
backscatter floor-clamped at 0.001 before the logarithm. -/
def s1_linear (vv : Pixel → ℚ) (p : Pixel) : ℚ :=
  max (vv p) (1 / 1000)

/-- `s1_linear.log10().multiply(10.0)` — decibel conversion; the logarithm
is applied only to the clamped value `s1_linear`. -/
def s1_db (log10 : ℚ → ℚ) (vv : Pixel → ℚ) (p : Pixel) : ℚ :=
  log10 (s1_linear vv p) * 10

/-- `s1_db.reduceNeighborhood(stdDev, square 3)`. -/
def roughness (env : Env) : Pixel → ℚ :=
  env.focalStd (s1_db env.log10 env.vv)

/-- `roughness.gt(RADAR_THRESHOLD)`. -/
def radar_mask (env : Env) (p : Pixel) : Bool :=
  decide (RADAR_THRESHOLD < roughness env p)

/-- `optical_mask.And(radar_mask)`. -/
def candidate_mask (env : Env) (p : Pixel) : Bool :=
  optical_mask env p && radar_mask env p

-- Section C: verification (depth check).

/-- `candidate_mask.focal_max(60, 'circle', 'meters').And(candidate_mask.Not())`. -/
def rim_mask (env : Env) (p : Pixel) : Bool :=
  focalMax env.nbhd (candidate_mask env) p && !(candidate_mask env p)

/-- `dem.updateMask(rim_mask).reduceRegion(mean, search_zone, 30).get('DEM') or 0.0`. -/
def lid_elevation (env : Env) : ℚ :=
  (reduceMean env.rimGrid env.dem (rim_mask env)).getD 0

/-- `ee.Image.constant(lid_elevation).subtract(dem)`. -/
def raw_depth (env : Env) (p : Pixel) : ℚ :=
  lid_elevation env - env.dem p

/-- `raw_depth.gt(t)` with `t = MIN_DEPTH_THRESHOLD` in the source. -/
def verified_depth_mask (env : Env) (t : ℚ) (p : Pixel) : Bool :=
  decide (t < raw_depth env p)

/-- `candidate_mask.And(verified_depth_mask)`. -/
def total_mining_mask (env : Env) (t : ℚ) (p : Pixel) : Bool :=
  candidate_mask env p && verified_depth_mask env t p

-- Section D: classification (legal vs illegal).

/-- `ee.Image.constant(0).byte().paint(roi, 1).unmask(0)`. -/
def lease_image (env : Env) (roi : Poly) (p : Pixel) : ℕ :=
  if env.rasterize roi p then 1 else 0

/-- `lease_image.eq(0)`. -/
def outside_mask (env : Env) (roi : Poly) (p : Pixel) : Bool :=
  lease_image env roi p == 0

/-- `lease_image.eq(1)`. -/
def inside_mask (env : Env) (roi : Poly) (p : Pixel) : Bool :=
  lease_image env roi p == 1

/-- `total_mining_mask.And(outside_mask)`. -/
def illegal_mask (env : Env) (roi : Poly) (t : ℚ) (p : Pixel) : Bool :=
  total_mining_mask env t p && outside_mask env roi p

/-- `total_mining_mask.And(inside_mask)`. -/
def legal_mask (env : Env) (roi : Poly) (t : ℚ) (p : Pixel) : Bool :=
  total_mining_mask env t p && inside_mask env roi p

-- Section E: quantification.

/-- `calc_stats(mask)`: area is `mask.multiply(pixelArea)` summed over the
search zone at scale 10 (`or 0.0`); volume is
`raw_depth.updateMask(mask).multiply(pixelArea)` summed at scale 30
(`or 0.0`). -/
def calc_stats (env : Env) (mask : Pixel → Bool) : ℚ × ℚ :=
  let area := (reduceSum env.fineGrid
    (fun p => (if mask p then (1 : ℚ) else 0) * env.fineGrid.pixArea p)
    (fun _ => true)).getD 0
  let vol := (reduceSum env.coarseGrid
    (fun p => raw_depth env p * env.coarseGrid.pixArea p) mask).getD 0
  (area, vol)

/-- `illegal_area_m2` before rounding (first component of `calc_stats(illegal_mask)`). -/
def illegal_area_raw (env : Env) (roi : Poly) (t : ℚ) : ℚ :=
  (calc_stats env (illegal_mask env roi t)).1

/-- `illegal_vol_m3` before rounding (second component of `calc_stats(illegal_mask)`). -/
def illegal_vol_raw (env : Env) (roi : Poly) (t : ℚ) : ℚ :=
  (calc_stats env (illegal_mask env roi t)).2

/-- `legal_area_m2` before rounding. -/
def legal_area_raw (env : Env) (roi : Poly) (t : ℚ) : ℚ :=
  (calc_stats env (legal_mask env roi t)).1

/-- `legal_vol_m3` before rounding. -/
def legal_vol_raw (env : Env) (roi : Poly) (t : ℚ) : ℚ :=
  (calc_stats env (legal_mask env roi t)).2

/-- `total_area_m2 = illegal_area_m2 + legal_area_m2`. -/
def total_area_raw (env : Env) (roi : Poly) (t : ℚ) : ℚ :=
  illegal_area_raw env roi t + legal_area_raw env roi t

/-- `total_vol_m3 = illegal_vol_m3 + legal_vol_m3`. -/
def total_vol_raw (env : Env) (roi : Poly) (t : ℚ) : ℚ :=
  illegal_vol_raw env roi t + legal_vol_raw env roi t

/-- `avg_depth_m = illegal_vol_m3 / illegal_area_m2 if illegal_area_m2 > 0 else 0.0`. -/
def avg_depth_raw (env : Env) (roi : Poly) (t : ℚ) : ℚ :=
  if 0 < illegal_area_raw env roi t then
    illegal_vol_raw env roi t / illegal_area_raw env roi t
  else 0

/-- Python `round(x, 2)` (exact ties round differently in Python, but no
claim here depends on a tie). -/
def round2 (q : ℚ) : ℚ :=
  (round (q * 100) : ℤ) / 100

/-- Python `int()` on a nonnegative-or-negative rational: truncation toward 0. -/
def pyInt (q : ℚ) : ℤ :=
  if 0 ≤ q then ⌊q⌋ else ⌈q⌉

-- Section H: the returned record.

/-- The `metrics` dict returned by `run_unified_detection` (its exact keys). -/
structure Metrics where
  illegal_area_m2 : ℚ
  volume_m3 : ℚ
  total_vol_m3 : ℚ
  avg_depth_m : ℚ
  truckloads : ℤ
deriving DecidableEq

/-- The `artifacts` dict returned by `run_unified_detection` (its exact keys). -/
structure Artifacts where
  map_url : String
  model_url : Option String
  report_url : String
deriving DecidableEq

/-- The record returned by `run_unified_detection`. -/
structure Result where
  status : String
  metrics : Metrics
  artifacts : Artifacts
deriving DecidableEq

/-- `run_unified_detection` with the minimum-depth threshold as an explicit
parameter (the source reads the module constant `MIN_DEPTH_THRESHOLD`). -/
def runDetection (env : Env) (parseGeom : String → Option Poly)
    (lease_geojson : Option String) (t : ℚ) : Result :=
  let roi := parse_roi parseGeom lease_geojson
  { status := "success"
    metrics :=
      { illegal_area_m2 := round2 (illegal_area_raw env roi t)
        volume_m3 := round2 (illegal_vol_raw env roi t)
        total_vol_m3 := round2 (total_vol_raw env roi t)
        avg_depth_m := round2 (avg_depth_raw env roi t)
        truckloads := pyInt (illegal_vol_raw env roi t / 15) }
    artifacts :=
      { map_url := "map_2d.html"
        model_url := if 0 < total_area_raw env roi t then some "model_3d.html" else none
        report_url := "report.pdf" } }

/-- `run_unified_detection` as in the source, at `MIN_DEPTH_THRESHOLD`. -/
def run_unified_detection (env : Env) (parseGeom : String → Option Poly)
    (lease_geojson : Option String) : Result :=
  runDetection env parseGeom lease_geojson MIN_DEPTH_THRESHOLD

/-- The keys of the `metrics` dict literal at the end of `run_unified_detection`. -/
def codeMetricsKeys : List String :=
  ["illegal_area_m2", "volume_m3", "total_vol_m3", "avg_depth_m", "truckloads"]

/-- The keys of the `artifacts` dict literal at the end of `run_unified_detection`. -/
def codeArtifactKeys : List String :=
  ["map_url", "model_url", "report_url"]

/-- Refinement target, from the spec's words: the metrics fields the spec's
Result record promises. -/
def specMetricsKeys : List String :=
  ["illegal_area_m2", "legal_area_m2", "volume_m3", "total_vol_m3", "avg_depth_m",
   "truckloads"]

/-- Refinement target, from the spec's words: the artifact references the
spec's Result record promises. -/
def specArtifactKeys : List String :=
  ["map", "3d_model", "report", "ai_mask", "ai_overlay"]

/-!
Embedding of `backend/ai_inference.py` (`MineSegmenter`).  Images and
masks are pixel functions; the Unet forward pass and the cv2 resizes are
external capabilities.
-/

/-- An RGB image: height, width, and per-pixel channel values in 0..255. -/
structure Image where
  h : ℕ
  w : ℕ
  px : ℕ → ℕ → ℚ × ℚ × ℚ

/-- The segmentation network: a forward pass from a normalized 512x512 RGB
grid to a per-pixel sigmoid probability map. -/
structure SegModel where
  net : (ℕ → ℕ → ℚ × ℚ × ℚ) → ℕ → ℕ → ℚ

/-- `MineSegmenter._load_model`: `cls._model = smp.Unet(...)` runs
unconditionally, so `_model` is set even when the weight file is absent;
`load_state_dict` replaces the fresh weights only when the file exists and
`torch.load` succeeds.  The result is never `none`. -/
def load_model (fresh trained : SegModel) (fileExists loadOk : Bool) : Option SegModel :=
  some (if fileExists && loadOk then trained else fresh)

/-- `np.zeros((h, w), dtype=np.uint8)`. -/
def zero_mask (_img : Image) : ℕ → ℕ → ℕ :=
  fun _ _ => (0 : ℕ)

/-- `img_resized / 255.0` after the cv2 resize to 512x512 (`resize512`). -/
def preprocess (resize512 : Image → ℕ → ℕ → ℚ × ℚ × ℚ) (img : Image) :
    ℕ → ℕ → ℚ × ℚ × ℚ :=
  fun i j =>
    let c := resize512 img i j
    (c.1 / 255, c.2.1 / 255, c.2.2 / 255)

/-- `MineSegmenter.predict`: the `_model is None` guard returning a zero
mask; otherwise forward pass, threshold at 0.5, cv2 resize back to the
original size (`resizeBack`), re-threshold at 0.5, and scale to 0/255. -/
def predict (resize512 : Image → ℕ → ℕ → ℚ × ℚ × ℚ)
    (resizeBack : (ℕ → ℕ → ℚ) → ℕ → ℕ → ℕ → ℕ → ℚ)
    (mdl : Option SegModel) (img : Image) : ℕ → ℕ → ℕ :=
  match mdl with
  | none => zero_mask img
  | some m =>
    let prob := m.net (preprocess resize512 img)
    let pred : ℕ → ℕ → ℚ := fun i j => if (1 : ℚ) / 2 < prob i j then 1 else 0
    let back := resizeBack pred img.h img.w
    fun i j => (if (1 : ℚ) / 2 < back i j then 1 else 0) * 255

/-!
Concrete instances used by witnesses and counterexamples.
-/

/-- A parser that rejects every GeoJSON string (models `ee.Geometry` raising). -/
def pgBad : String → Option Poly := fun _ => none

/-- The pixel (0, 0). -/
def p00 : Pixel := ((0 : ℤ), (0 : ℤ))

/-- A one-pixel grid at `p00` with the given pixel area. -/
def grid00 (a : ℚ) : Grid :=
  { pts := {p00}, pixArea := fun _ => a }

/-- A backend state on which every pixel is candidate disturbance outside
the lease: NDBI 1, radar roughness 1, DEM at -10 (so depth 10 once the rim
mean defaults to 0), polygon rasterization empty, empty dilation kernel. -/
def env₀ : Env :=
  { ndbi := fun _ => 1
    vv := fun _ => 1
    log10 := fun _ => 0
    focalStd := fun _ _ => 1
    dem := fun _ => -10
    rasterize := fun _ _ => false
    nbhd := fun _ => ∅
    rimGrid := grid00 900
    fineGrid := grid00 100
    coarseGrid := grid00 900 }

/-- A backend state with no optical signal anywhere (NDBI 0), hence an
empty candidate mask. -/
def envC : Env :=
  { env₀ with ndbi := fun _ => 0 }

/-- A backend state whose illegal disturbance covers the scale-30 volume
sample pixel `p00` but no scale-10 area sample pixel (the area lattice
samples at (5, 5), where there is no candidate signal). -/
def env₂ : Env :=
  { env₀ with
    ndbi := fun p => if p = p00 then 1 else 0
    fineGrid := { pts := {((5 : ℤ), (5 : ℤ))}, pixArea := fun _ => 100 } }

/-- An untrained network that outputs probability 1 everywhere. -/
def onesModel : SegModel :=
  { net := fun _ _ _ => 1 }

/-- A resize that just reads the source pixels (identity on a 512-sized image). -/
def idResize512 : Image → ℕ → ℕ → ℚ × ℚ × ℚ :=
  fun img => img.px

/-- A resize-back that keeps the mask values unchanged. -/
def idResizeBack : (ℕ → ℕ → ℚ) → ℕ → ℕ → ℕ → ℕ → ℚ :=
  fun m _ _ => m

/-- A uniformly black 1x1 image. -/
def constImage : Image :=
  { h := 1, w := 1, px := fun _ _ => (0, 0, 0) }

/-!
Helper lemmas.
-/

lemma reduceSum_getD (g : Grid) (img : Pixel → ℚ) (mask : Pixel → Bool) :
    (reduceSum g img mask).getD 0 = ∑ p ∈ g.pts.filter (fun p => mask p = true), img p := by
  unfold reduceSum
  by_cases h : g.pts.filter (fun p => mask p = true) = ∅
  · simp [h]
  · simp [h]

lemma calc_area_eq (env : Env) (m : Pixel → Bool) :
    (calc_stats env m).1 =
      ∑ p ∈ env.fineGrid.pts, (if m p = true then (1 : ℚ) else 0) * env.fineGrid.pixArea p := by
  unfold calc_stats
  dsimp only
  rw [reduceSum_getD]
  simp

lemma calc_vol_eq (env : Env) (m : Pixel → Bool) :
    (calc_stats env m).2 =
      ∑ p ∈ env.coarseGrid.pts,
        (if m p = true then raw_depth env p * env.coarseGrid.pixArea p else 0) := by
  unfold calc_stats
  dsimp only
  rw [reduceSum_getD, Finset.sum_filter]

lemma legal_illegal_pointwise (env : Env) (roi : Poly) (t : ℚ) (p : Pixel) :
    (legal_mask env roi t p && illegal_mask env roi t p) = false ∧
    (legal_mask env roi t p || illegal_mask env roi t p) = total_mining_mask env t p := by
  unfold legal_mask illegal_mask inside_mask outside_mask lease_image
  by_cases h : env.rasterize roi p <;>
    cases htot : total_mining_mask env t p <;> simp [h, htot]

lemma illegal_mask_le (env : Env) (roi : Poly) {t₁ t₂ : ℚ} (h : t₁ ≤ t₂) (p : Pixel)
    (h2 : illegal_mask env roi t₂ p = true) : illegal_mask env roi t₁ p = true := by
  unfold illegal_mask total_mining_mask verified_depth_mask at h2 ⊢
  simp only [Bool.and_eq_true, decide_eq_true_eq] at h2 ⊢
  exact ⟨⟨h2.1.1, lt_of_le_of_lt h h2.1.2⟩, h2.2⟩

lemma round2_mono {a b : ℚ} (h : a ≤ b) : round2 a ≤ round2 b := by
  unfold round2
  have h1 : round (a * 100) ≤ round (b * 100) := by
    rw [round_eq, round_eq]
    exact Int.floor_mono (by linarith)
  have h2 : ((round (a * 100) : ℤ) : ℚ) ≤ ((round (b * 100) : ℤ) : ℚ) := by exact_mod_cast h1
  linarith

lemma pyInt_eq_zero {q : ℚ} (h0 : 0 ≤ q) (h1 : q < 1) : pyInt q = 0 := by
  unfold pyInt
  rw [if_pos h0]
  exact Int.floor_eq_zero_iff.2 ⟨h0, h1⟩

/-!
Evaluation lemmas for the concrete backend states.
-/

lemma rim_env₀ (p : Pixel) : rim_mask env₀ p = false := by
  simp [rim_mask, focalMax, env₀]

lemma lid_env₀ : lid_elevation env₀ = 0 := by
  unfold lid_elevation reduceMean
  have h : env₀.rimGrid.pts.filter (fun p => rim_mask env₀ p = true) = ∅ :=
    Finset.filter_eq_empty_iff.2 (fun p _ => by simp [rim_env₀])
  simp [h]

lemma raw_depth_env₀ (p : Pixel) : raw_depth env₀ p = 10 := by
  rw [raw_depth, lid_env₀]
  show (0 : ℚ) - env₀.dem p = 10
  norm_num [env₀]

lemma illegal_env₀ (roi : Poly) {t : ℚ} (ht : t < 10) (p : Pixel) :
    illegal_mask env₀ roi t p = true := by
  have h1 : optical_mask env₀ p = true := by
    rw [optical_mask, decide_eq_true_eq]
    norm_num [env₀, OPTICAL_THRESHOLD]
  have h2 : radar_mask env₀ p = true := by
    rw [radar_mask, decide_eq_true_eq]
    norm_num [roughness, env₀, RADAR_THRESHOLD]
  have h3 : verified_depth_mask env₀ t p = true := by
    rw [verified_depth_mask, decide_eq_true_eq, raw_depth_env₀]
    exact ht
  have h4 : outside_mask env₀ roi p = true := by
    simp [outside_mask, lease_image, env₀]
  simp [illegal_mask, total_mining_mask, candidate_mask, h1, h2, h3, h4]

lemma candidate_envC (p : Pixel) : candidate_mask envC p = false := by
  have h1 : optical_mask envC p = false := by
    rw [optical_mask, decide_eq_false_iff_not]
    norm_num [envC, env₀, OPTICAL_THRESHOLD]
  simp [candidate_mask, h1]

lemma illegal_envC (roi : Poly) (t : ℚ) (p : Pixel) :
    illegal_mask envC roi t p = false := by
  simp [illegal_mask, total_mining_mask, candidate_envC]

lemma illegal_area_envC (roi : Poly) (t : ℚ) : illegal_area_raw envC roi t = 0 := by
  unfold illegal_area_raw
  rw [calc_area_eq]
  simp [illegal_envC]

lemma illegal_vol_envC (roi : Poly) (t : ℚ) : illegal_vol_raw envC roi t = 0 := by
  unfold illegal_vol_raw
  rw [calc_vol_eq]
  simp [illegal_envC]

lemma rim_env₂ (p : Pixel) : rim_mask env₂ p = false := by
  simp [rim_mask, focalMax, env₂, env₀]

lemma lid_env₂ : lid_elevation env₂ = 0 := by
  unfold lid_elevation reduceMean
  have h : env₂.rimGrid.pts.filter (fun p => rim_mask env₂ p = true) = ∅ :=
    Finset.filter_eq_empty_iff.2 (fun p _ => by simp [rim_env₂])
  simp [h]

lemma raw_depth_env₂ (p : Pixel) : raw_depth env₂ p = 10 := by
  rw [raw_depth, lid_env₂]
  show (0 : ℚ) - env₂.dem p = 10
  norm_num [env₂, env₀]

lemma illegal_env₂_p00 : illegal_mask env₂ default_roi MIN_DEPTH_THRESHOLD p00 = true := by
  have h1 : optical_mask env₂ p00 = true := by
    rw [optical_mask, decide_eq_true_eq]
    norm_num [env₂, env₀, OPTICAL_THRESHOLD]
  have h2 : radar_mask env₂ p00 = true := by
    rw [radar_mask, decide_eq_true_eq]
    norm_num [roughness, env₂, env₀, RADAR_THRESHOLD]
  have h3 : verified_depth_mask env₂ MIN_DEPTH_THRESHOLD p00 = true := by
    rw [verified_depth_mask, decide_eq_true_eq, raw_depth_env₂]
    norm_num [MIN_DEPTH_THRESHOLD]
  have h4 : outside_mask env₂ default_roi p00 = true := by
    simp [outside_mask, lease_image, env₂, env₀]
  simp [illegal_mask, total_mining_mask, candidate_mask, h1, h2, h3, h4]

lemma illegal_env₂_p55 :
    illegal_mask env₂ default_roi MIN_DEPTH_THRESHOLD ((5 : ℤ), (5 : ℤ)) = false := by
  have h1 : optical_mask env₂ ((5 : ℤ), (5 : ℤ)) = false := by
    rw [optical_mask, decide_eq_false_iff_not]
    norm_num [env₂, env₀, OPTICAL_THRESHOLD, p00]
  simp [illegal_mask, total_mining_mask, candidate_mask, h1]

lemma illegal_area_env₂ : illegal_area_raw env₂ default_roi MIN_DEPTH_THRESHOLD = 0 := by
  unfold illegal_area_raw
  rw [calc_area_eq]
  have hpts : env₂.fineGrid.pts = {((5 : ℤ), (5 : ℤ))} := rfl
  rw [hpts, Finset.sum_singleton, illegal_env₂_p55]
  simp

lemma illegal_vol_env₂ : illegal_vol_raw env₂ default_roi MIN_DEPTH_THRESHOLD = 9000 := by
  unfold illegal_vol_raw
  rw [calc_vol_eq]
  have hpts : env₂.coarseGrid.pts = {p00} := rfl
  rw [hpts, Finset.sum_singleton, illegal_env₂_p00, raw_depth_env₂]
  norm_num [env₂, env₀, grid00]

/-!
Claim theorems.
-/

/-- C1: for every backend state, lease polygon, depth threshold and pixel,
the legal and illegal masks computed by `run_unified_detection` are
disjoint, their union is the total mask, and the total mask is the
conjunction of the candidate and verified-depth masks — every pixel of
the total mask is classified as exactly one of legal or illegal. -/
theorem legal_illegal_partition_total (env : Env) (roi : Poly) (t : ℚ) (p : Pixel) :
    (legal_mask env roi t p && illegal_mask env roi t p) = false ∧
    (legal_mask env roi t p || illegal_mask env roi t p) = total_mining_mask env t p ∧
    total_mining_mask env t p = (candidate_mask env p && verified_depth_mask env t p) :=
  ⟨(legal_illegal_pointwise env roi t p).1, (legal_illegal_pointwise env roi t p).2, rfl⟩

/-- C10: the combined totals are exactly the sums of the per-class results,
and (because legal/illegal partition the total mask) those sums coincide
with what direct integration over the total mask would give — the code
never needs to integrate the totals independently. -/
theorem totals_are_class_sums (env : Env) (roi : Poly) (t : ℚ) :
    total_area_raw env roi t = illegal_area_raw env roi t + legal_area_raw env roi t ∧
    total_vol_raw env roi t = illegal_vol_raw env roi t + legal_vol_raw env roi t ∧
    total_area_raw env roi t = (calc_stats env (total_mining_mask env t)).1 ∧
    total_vol_raw env roi t = (calc_stats env (total_mining_mask env t)).2 := by
  refine ⟨rfl, rfl, ?_, ?_⟩
  · unfold total_area_raw illegal_area_raw legal_area_raw
    rw [calc_area_eq, calc_area_eq, calc_area_eq, ← Finset.sum_add_distrib]
    apply Finset.sum_congr rfl
    intro p _
    have hd := (legal_illegal_pointwise env roi t p).1
    have hu := (legal_illegal_pointwise env roi t p).2
    cases hleg : legal_mask env roi t p <;> cases hill : illegal_mask env roi t p <;>
      rw [hleg, hill] at hd hu <;> simp_all
  · unfold total_vol_raw illegal_vol_raw legal_vol_raw
    rw [calc_vol_eq, calc_vol_eq, calc_vol_eq, ← Finset.sum_add_distrib]
    apply Finset.sum_congr rfl
    intro p _
    have hd := (legal_illegal_pointwise env roi t p).1
    have hu := (legal_illegal_pointwise env roi t p).2
    cases hleg : legal_mask env roi t p <;> cases hill : illegal_mask env roi t p <;>
      rw [hleg, hill] at hd hu <;> simp_all

/-- C5: for fixed inputs, the run with the larger minimum-depth threshold
reports an `illegal_area_m2` that is at most the other run's. -/
theorem illegal_area_threshold_antitone (env : Env) (parseGeom : String → Option Poly)
    (lease : Option String) (t₁ t₂ : ℚ) (h : t₁ ≤ t₂)
    (hw : ∀ p ∈ env.fineGrid.pts, 0 ≤ env.fineGrid.pixArea p) :
    (runDetection env parseGeom lease t₂).metrics.illegal_area_m2 ≤
      (runDetection env parseGeom lease t₁).metrics.illegal_area_m2 := by
  have hraw : illegal_area_raw env (parse_roi parseGeom lease) t₂ ≤
      illegal_area_raw env (parse_roi parseGeom lease) t₁ := by
    unfold illegal_area_raw
    rw [calc_area_eq, calc_area_eq]
    apply Finset.sum_le_sum
    intro p hp
    cases h2 : illegal_mask env (parse_roi parseGeom lease) t₂ p
    · cases h1 : illegal_mask env (parse_roi parseGeom lease) t₁ p <;> simp [hw p hp]
    · simp [illegal_mask_le env (parse_roi parseGeom lease) h p h2]
  exact round2_mono hraw

/-- C5 witness at a concrete backend state and thresholds 2 and 3. -/
theorem illegal_area_threshold_antitone_witness :
    (runDetection env₀ pgBad none 3).metrics.illegal_area_m2 ≤
      (runDetection env₀ pgBad none 2).metrics.illegal_area_m2 :=
  illegal_area_threshold_antitone env₀ pgBad none 2 3 (by norm_num) (by decide)

/-- C7: the decibel conversion applies the logarithm only to the linear
backscatter floor-clamped at 0.001, which is therefore positive. -/
theorem log_argument_clamped (vv : Pixel → ℚ) (p : Pixel) :
    (1 : ℚ) / 1000 ≤ s1_linear vv p ∧ 0 < s1_linear vv p ∧
    ∀ log10f : ℚ → ℚ, s1_db log10f vv p = log10f (s1_linear vv p) * 10 := by
  refine ⟨?_, ?_, fun _ => rfl⟩
  · simp only [s1_linear]
    exact le_max_right _ _
  · simp only [s1_linear]
    exact lt_of_lt_of_le (by norm_num) (le_max_right _ _)

/-- C2 counterexample: a backend state on which the scale-10 area
integration finds no illegal pixel (so the returned and the unrounded
`illegal_area_m2` are both 0) while the independent scale-30 volume
integration sees one illegal DEM pixel of depth 10 m over 900 m², giving
`illegal_vol_m3 = 9000` and hence `truckloads = int(9000 / 15) = 600 ≠ 0`:
the zero-guard on truckloads does not hold regardless of the volume path. -/
theorem zero_area_nonzero_truckloads :
    illegal_area_raw env₂ default_roi MIN_DEPTH_THRESHOLD = 0 ∧
    (run_unified_detection env₂ pgBad none).metrics.illegal_area_m2 = 0 ∧
    (run_unified_detection env₂ pgBad none).metrics.truckloads = 600 ∧
    (run_unified_detection env₂ pgBad none).metrics.truckloads ≠ 0 := by
  have hpr : parse_roi pgBad none = default_roi := rfl
  refine ⟨illegal_area_env₂, ?_, ?_, ?_⟩
  · show round2 (illegal_area_raw env₂ (parse_roi pgBad none) MIN_DEPTH_THRESHOLD) = 0
    rw [hpr, illegal_area_env₂]
    norm_num [round2]
  · show pyInt (illegal_vol_raw env₂ (parse_roi pgBad none) MIN_DEPTH_THRESHOLD / 15) = 600
    rw [hpr, illegal_vol_env₂]
    norm_num [pyInt]
  · show pyInt (illegal_vol_raw env₂ (parse_roi pgBad none) MIN_DEPTH_THRESHOLD / 15) ≠ 0
    rw [hpr, illegal_vol_env₂]
    norm_num [pyInt]

/-- C2 amended: if the unrounded illegal area is 0 then the returned
`avg_depth_m` is 0; and the returned `truckloads` is 0 whenever the
unrounded illegal volume (integrated independently at the coarser DEM
scale) is nonnegative and below 15 — in particular whenever the volume
integration also finds no illegal pixel.  `truckloads` is computed from
the volume alone and is not guarded by `illegal_area_m2`. -/
theorem zero_guard_amended (env : Env) (parseGeom : String → Option Poly)
    (lease : Option String) :
    (illegal_area_raw env (parse_roi parseGeom lease) MIN_DEPTH_THRESHOLD = 0 →
      (run_unified_detection env parseGeom lease).metrics.avg_depth_m = 0) ∧
    (0 ≤ illegal_vol_raw env (parse_roi parseGeom lease) MIN_DEPTH_THRESHOLD →
      illegal_vol_raw env (parse_roi parseGeom lease) MIN_DEPTH_THRESHOLD < 15 →
      (run_unified_detection env parseGeom lease).metrics.truckloads = 0) := by
  constructor
  · intro h
    show round2 (avg_depth_raw env (parse_roi parseGeom lease) MIN_DEPTH_THRESHOLD) = 0
    unfold avg_depth_raw
    rw [h]
    norm_num [round2]
  · intro h0 h15
    show pyInt (illegal_vol_raw env (parse_roi parseGeom lease) MIN_DEPTH_THRESHOLD / 15) = 0
    exact pyInt_eq_zero (div_nonneg h0 (by norm_num)) ((div_lt_one (by norm_num)).2 h15)

/-- C2 amended, witness: backend state with no candidate signal anywhere. -/
theorem zero_guard_amended_witness :
    (run_unified_detection envC pgBad none).metrics.avg_depth_m = 0 ∧
    (run_unified_detection envC pgBad none).metrics.truckloads = 0 :=
  ⟨(zero_guard_amended envC pgBad none).1 (illegal_area_envC _ _),
   (zero_guard_amended envC pgBad none).2 (le_of_eq (illegal_vol_envC _ _).symm)
     (by rw [illegal_vol_envC]; norm_num)⟩

/-- C6: when the candidate mask is empty, the rim mean is undefined and the
reference elevation defaults to 0, `illegal_area_m2` is 0, `truckloads`
is 0, and the returned status is still "success". -/
theorem empty_candidate_success (env : Env) (parseGeom : String → Option Poly)
    (lease : Option String) (hC : ∀ p, candidate_mask env p = false) :
    lid_elevation env = 0 ∧
    (run_unified_detection env parseGeom lease).metrics.illegal_area_m2 = 0 ∧
    (run_unified_detection env parseGeom lease).metrics.truckloads = 0 ∧
    (run_unified_detection env parseGeom lease).status = "success" := by
  have hrim : ∀ p, rim_mask env p = false := by
    intro p
    simp [rim_mask, focalMax, hC]
  have hill : ∀ p, illegal_mask env (parse_roi parseGeom lease) MIN_DEPTH_THRESHOLD p
      = false := by
    intro p
    simp [illegal_mask, total_mining_mask, hC]
  have harea : illegal_area_raw env (parse_roi parseGeom lease) MIN_DEPTH_THRESHOLD = 0 := by
    unfold illegal_area_raw
    rw [calc_area_eq]
    simp [hill]
  have hvol : illegal_vol_raw env (parse_roi parseGeom lease) MIN_DEPTH_THRESHOLD = 0 := by
    unfold illegal_vol_raw
    rw [calc_vol_eq]
    simp [hill]
  refine ⟨?_, ?_, ?_, rfl⟩
  · unfold lid_elevation reduceMean
    have : env.rimGrid.pts.filter (fun p => rim_mask env p = true) = ∅ :=
      Finset.filter_eq_empty_iff.2 (fun hp => by simp [hrim])
    simp [this]
  · show round2 (illegal_area_raw env (parse_roi parseGeom lease) MIN_DEPTH_THRESHOLD) = 0
    rw [harea]
    norm_num [round2]
  · show pyInt (illegal_vol_raw env (parse_roi parseGeom lease) MIN_DEPTH_THRESHOLD / 15) = 0
    rw [hvol]
    norm_num [pyInt]

/-- C6 witness: the concrete backend state with NDBI 0 everywhere has an
empty candidate mask, and the run degrades to the zero metrics with
status "success". -/
theorem empty_candidate_success_witness :
    lid_elevation envC = 0 ∧
    (run_unified_detection envC pgBad none).metrics.illegal_area_m2 = 0 ∧
    (run_unified_detection envC pgBad none).metrics.truckloads = 0 ∧
    (run_unified_detection envC pgBad none).status = "success" :=
  empty_candidate_success envC pgBad none candidate_envC

/-- C8: at every pixel where the legal or illegal mask is true, the depth
raster exceeds `MIN_DEPTH_THRESHOLD` (hence is positive), so at a pixel of
positive area the per-pixel contribution to the volume sum is positive —
negative depths are never counted toward volume. -/
theorem counted_pixels_depth_positive (env : Env) (roi : Poly) (p : Pixel)
    (hm : legal_mask env roi MIN_DEPTH_THRESHOLD p = true ∨
          illegal_mask env roi MIN_DEPTH_THRESHOLD p = true)
    (hw : 0 < env.coarseGrid.pixArea p) :
    MIN_DEPTH_THRESHOLD < raw_depth env p ∧ 0 < raw_depth env p ∧
    0 < raw_depth env p * env.coarseGrid.pixArea p := by
  have hv : verified_depth_mask env MIN_DEPTH_THRESHOLD p = true := by
    rcases hm with h | h <;>
      simp only [legal_mask, illegal_mask, total_mining_mask, Bool.and_eq_true] at h <;>
      exact h.1.2
  have hd : MIN_DEPTH_THRESHOLD < raw_depth env p := by
    simpa [verified_depth_mask] using hv
  have h0 : (0 : ℚ) < raw_depth env p := by
    have : (0 : ℚ) < MIN_DEPTH_THRESHOLD := by norm_num [MIN_DEPTH_THRESHOLD]
    linarith
  exact ⟨hd, h0, mul_pos h0 hw⟩

/-- C8 witness at the all-illegal backend state and the pixel (0, 0). -/
theorem counted_pixels_depth_positive_witness :
    MIN_DEPTH_THRESHOLD < raw_depth env₀ p00 ∧ 0 < raw_depth env₀ p00 ∧
    0 < raw_depth env₀ p00 * env₀.coarseGrid.pixArea p00 :=
  counted_pixels_depth_positive env₀ default_roi p00
    (Or.inr (illegal_env₀ default_roi (by norm_num [MIN_DEPTH_THRESHOLD]) p00))
    (by norm_num [env₀, grid00])

/-- C9 counterexample: with a malformed lease polygon the run falls back to
the default polygon and completes, but the returned Result is literally
identical to the Result of the run with the polygon omitted — status is
"success" and no field signals the fallback, so callers cannot distinguish
the requested-site analysis from the default-site analysis. -/
theorem fallback_not_signaled :
    run_unified_detection env₀ pgBad (some "not-a-polygon") =
      run_unified_detection env₀ pgBad none ∧
    (run_unified_detection env₀ pgBad (some "not-a-polygon")).status = "success" :=
  ⟨rfl, rfl⟩

/-- C9 amended: a malformed (or omitted) lease polygon falls back to the
documented default polygon and the Result is still computed normally with
status "success", but the fallback is not signaled anywhere in the Result:
the record equals the one produced with the polygon omitted. -/
theorem fallback_default_unsignaled (env : Env) (parseGeom : String → Option Poly)
    (g : String) (h : parseGeom g = none) :
    run_unified_detection env parseGeom (some g) =
      run_unified_detection env parseGeom none ∧
    (run_unified_detection env parseGeom (some g)).status = "success" := by
  have hroi : parse_roi parseGeom (some g) = parse_roi parseGeom none := by
    simp [parse_roi, h]
  exact ⟨by simp only [run_unified_detection, runDetection, hroi], rfl⟩

/-- C9 amended, witness. -/
theorem fallback_default_unsignaled_witness :
    run_unified_detection env₀ pgBad (some "still-not-a-polygon") =
      run_unified_detection env₀ pgBad none ∧
    (run_unified_detection env₀ pgBad (some "still-not-a-polygon")).status = "success" :=
  fallback_default_unsignaled env₀ pgBad "still-not-a-polygon" rfl

/-- C4 counterexample: the metrics dict returned by `run_unified_detection`
does not carry `legal_area_m2`, and the artifacts dict references neither
an AI mask nor an AI overlay, so the returned record does not match the
Result record the claim (after the spec) promises. -/
theorem result_fields_mismatch :
    codeMetricsKeys ≠ specMetricsKeys ∧
    "legal_area_m2" ∈ specMetricsKeys ∧ "legal_area_m2" ∉ codeMetricsKeys ∧
    "ai_mask" ∈ specArtifactKeys ∧ "ai_mask" ∉ codeArtifactKeys ∧
    "ai_overlay" ∈ specArtifactKeys ∧ "ai_overlay" ∉ codeArtifactKeys := by decide

/-- C4 amended: every run returns status "success", a metrics object with
exactly the fields illegal_area_m2, volume_m3, total_vol_m3, avg_depth_m
and truckloads (no legal_area_m2), and an artifacts object referencing the
2D map, the 3D model (present only when the total area is positive, else
null) and the PDF report — no AI mask or overlay artifact. -/
theorem result_record_shape (env : Env) (parseGeom : String → Option Poly)
    (lease : Option String) :
    (run_unified_detection env parseGeom lease).status = "success" ∧
    (run_unified_detection env parseGeom lease).metrics.illegal_area_m2 =
      round2 (illegal_area_raw env (parse_roi parseGeom lease) MIN_DEPTH_THRESHOLD) ∧
    (run_unified_detection env parseGeom lease).metrics.truckloads =
      pyInt (illegal_vol_raw env (parse_roi parseGeom lease) MIN_DEPTH_THRESHOLD / 15) ∧
    (run_unified_detection env parseGeom lease).artifacts.map_url = "map_2d.html" ∧
    (run_unified_detection env parseGeom lease).artifacts.model_url =
      (if 0 < total_area_raw env (parse_roi parseGeom lease) MIN_DEPTH_THRESHOLD
        then some "model_3d.html" else none) ∧
    (run_unified_detection env parseGeom lease).artifacts.report_url = "report.pdf" ∧
    codeMetricsKeys =
      ["illegal_area_m2", "volume_m3", "total_vol_m3", "avg_depth_m", "truckloads"] :=
  ⟨rfl, rfl, rfl, rfl, rfl, rfl, rfl⟩

/-- C3 (code bug): `MineSegmenter._load_model` constructs the Unet
unconditionally before checking for the weight file, so `_model` is never
`None` and the all-zero-mask guard in `predict` can never fire: with the
weight file absent, `predict` runs the untrained network — here an
untrained net outputting probability 1 yields 255 at every pixel instead
of the all-zero mask the claim promises. -/
theorem predict_missing_weights_not_zero :
    (∀ loadOk : Bool, load_model onesModel onesModel false loadOk = some onesModel) ∧
    predict idResize512 idResizeBack (load_model onesModel onesModel false true)
      constImage 0 0 = 255 ∧
    zero_mask constImage 0 0 = 0 := by
  refine ⟨fun loadOk => ?_, ?_, rfl⟩
  · cases loadOk <;> rfl
  · norm_num [predict, load_model, onesModel, idResize512, idResizeBack, preprocess,
      constImage]

end MineGuard
